import Mathlib

/-!
Shallow embedding of `pdfcombine/cli.py` (adamheins/pdfcombine).

The program parses a flat command-line token stream into an output path and
an ordered list of per-file operations (page selection plus rotation), then
appends the selected pages of each input file to one combined output PDF.
Actual PDF reading/writing is external; here it is modelled abstractly
(a page count per filename, and an effect-level result saying whether the
output file is written).

Python exceptions relevant to the embedded code are modelled explicitly:
all errors raised by the program itself are `ValueError`s; `IndexError`
(from `list.pop` / `deque.popleft` out of range) and `NameError` (from
evaluating an undefined variable) also occur and are NOT caught by `main`,
which wraps only `parse_output_file` in `except ValueError`.
-/

namespace Pdfcombine

/-- Python exception model for the errors the embedded code can raise.
The first four constructors are `ValueError`s (with the message determined
by the constructor argument); `indexError` and `nameError` are the other
exception classes that can escape. -/
inductive PyErr where
  /-- `ValueError` raised by `int(s)` on a non-integer literal `s`. -/
  | invalidLiteral : String → PyErr
  /-- `ValueError(f"invalid range: {r}")` from `parse_page_range`. -/
  | invalidRange : String → PyErr
  /-- `ValueError(f"failed to parse page range: {s}")` from `parse_page_range`. -/
  | rangeParseFailed : String → PyErr
  /-- `ValueError("Both -o and --output specified. Aborting.")`. -/
  | conflictingOutputFlags : PyErr
  /-- `IndexError` from `list.pop(i)` out of range or `deque.popleft()` on empty. -/
  | indexError : PyErr
  /-- `NameError` from evaluating an undefined variable of the given name. -/
  | nameError : String → PyErr
  deriving DecidableEq, Repr

/-- Which exceptions `main`'s handlers catch: `main` has exactly one
`try/except ValueError` (around `parse_output_file`) and one around
`op.pages_to_keep`; every other exception propagates and crashes the run. -/
def isValueError : PyErr → Bool
  | .invalidLiteral _ => true
  | .invalidRange _ => true
  | .rangeParseFailed _ => true
  | .conflictingOutputFlags => true
  | .indexError => false
  | .nameError _ => false

/-- Whether an `Except` result is an error. -/
def isError {α : Type} : Except PyErr α → Bool
  | .error _ => true
  | .ok _ => false

instance {ε α : Type} [DecidableEq ε] [DecidableEq α] : DecidableEq (Except ε α) := fun a b =>
  match a, b with
  | .error e, .error f => decidable_of_iff (e = f) (by simp)
  | .error _, .ok _ => isFalse (by simp)
  | .ok _, .error _ => isFalse (by simp)
  | .ok x, .ok y => decidable_of_iff (x = y) (by simp)

/-- Helper for `pySplit`: walk the characters, cutting at each separator
(`acc` holds the reversed characters of the current piece). -/
def pySplitAux (sep : Char) : List Char → List Char → List String
  | [], acc => [String.mk acc.reverse]
  | c :: cs, acc =>
    if c = sep then String.mk acc.reverse :: pySplitAux sep cs []
    else pySplitAux sep cs (c :: acc)

/-- Python `s.split(sep)` for a one-character separator (the program only
splits on `","` and `"-"`): the pieces between separator occurrences,
keeping empty pieces, with `"".split(sep) == [""]`. -/
def pySplit (s : String) (sep : Char) : List String :=
  pySplitAux sep s.data []

/-- Helper for `pyInt?`: the value of a non-empty digit string, `none` on
a non-digit character (`48` is the code of `0`). -/
def digitsAux : Nat → List Char → Option Nat
  | acc, [] => some acc
  | acc, c :: cs => if c.isDigit then digitsAux (acc * 10 + (c.toNat - 48)) cs else none

/-- Helper for `pyInt?`: `none` on the empty string. -/
def digitsVal? : List Char → Option Nat
  | [] => none
  | l => digitsAux 0 l

/-- Helper for `pyInt?`: optional sign, then digits. -/
def pyIntChars? : List Char → Option Int
  | '-' :: cs => (digitsVal? cs).map (fun n => -(n : Int))
  | '+' :: cs => (digitsVal? cs).map (fun n => (n : Int))
  | cs => (digitsVal? cs).map (fun n => (n : Int))

/-- Python `int(s)` on an optionally signed decimal literal: `some` of its
value when `s` is an optional `+`/`-` sign followed by one or more digits,
`none` (a `ValueError`) otherwise.  (Whitespace and underscore forms that
Python also accepts are not modelled; no call site in the program produces
them.) -/
def pyInt? (s : String) : Option Int :=
  pyIntChars? s.data

/-- Python `s.startswith("-")`. -/
def startsWithDash (s : String) : Bool :=
  match s.data with
  | [] => false
  | c :: _ => c = '-'

/-- One iteration of the `for r in ranges` loop body of `parse_page_range`:
the set of pages contributed by the comma-token `r` (with `s` the whole
spec, used in the `failed to parse` message), or the `ValueError` raised.
A single integer token contributes a singleton; `LOW-HIGH` contributes the
inclusive range `[LOW, HIGH]` after checking `HIGH < LOW`; anything with
more than one dash fails. -/
def tokenPages (s r : String) : Except PyErr (Finset Int) :=
  match pySplit r '-' with
  | [x] =>
    match pyInt? x with
    | some n => .ok {n}
    | none => .error (PyErr.invalidLiteral x)
  | [x, y] =>
    match pyInt? x with
    | none => .error (PyErr.invalidLiteral x)
    | some low =>
      match pyInt? y with
      | none => .error (PyErr.invalidLiteral y)
      | some high =>
        if high < low then .error (PyErr.invalidRange r)
        else .ok (Finset.Icc low high)
  | _ => .error (PyErr.rangeParseFailed s)

/-- The `for r in ranges` loop of `parse_page_range`, accumulating the
union of all token contributions; the first failing token aborts the
whole parse. -/
def parseRangeLoop (s : String) (acc : Finset Int) : List String → Except PyErr (Finset Int)
  | [] => .ok acc
  | r :: rs =>
    match tokenPages s r with
    | .error e => .error e
    | .ok t => parseRangeLoop s (acc ∪ t) rs

/-- `parse_page_range(s, zero_index)`: split on commas, union the pages of
every token, then (in zero-index mode) decrement every page by one
(`set([p - 1 for p in pages])`). -/
def parse_page_range (s : String) (zero_index : Bool) : Except PyErr (Finset Int) :=
  match parseRangeLoop s ∅ (pySplit s ',') with
  | .error e => .error e
  | .ok pages => .ok (if zero_index then pages.image (fun p => p - 1) else pages)

/-- The `Operation` class: one input file's selection-and-rotation
directive.  Fields mirror the constructor parameters (`filename`,
`page_range`, `keep`, `angle`). -/
structure Operation where
  filename : String
  page_range : Option String
  keep : Bool
  angle : Int
  deriving DecidableEq, Repr

/-- `set(range(N))`, as a `Finset` of `Int` (page indices are `Int`s in the
program because the zero-index decrement can reach `-1`). -/
def allPages (N : Nat) : Finset Int :=
  (Finset.range N).image (fun k : Nat => (k : Int))

/-- `Operation.pages_to_keep(N)`: all pages when `page_range` is `None`;
otherwise the parsed set as-is in keep mode, and its complement within
`all_pages` in remove mode.  The `ValueError`s of `parse_page_range`
propagate (the caller in `main` catches them). -/
def Operation.pages_to_keep (op : Operation) (N : Nat) : Except PyErr (Finset Int) :=
  match op.page_range with
  | none => .ok (allPages N)
  | some s =>
    match parse_page_range s true with
    | .error e => .error e
    | .ok pages => if op.keep then .ok pages else .ok (allPages N \ pages)

/-- Python `args.index(x)` wrapped in the `try/except ValueError` of
`parse_output_file`: the first index of `x` in `args`, or `-1` when
absent.  An `Int` so that the source's `-1` sentinel and its `idx > 0`
comparison are mirrored exactly. -/
def pyIndex (l : List String) (x : String) : Int :=
  match l.findIdx? (fun t => t == x) with
  | some n => (n : Int)
  | none => -1

/-- Python index normalization for sequences: a negative index counts from
the end (`i + len`), a non-negative one is used as-is. -/
def pyNormIdx (len : Nat) (i : Int) : Int :=
  if i < 0 then i + (len : Int) else i

/-- Python `args.pop(i)`: remove and return the element at normalized
index `i`, or raise `IndexError` when it is out of range. -/
def pyPop (l : List String) (i : Int) : Except PyErr (String × List String) :=
  if h : 0 ≤ pyNormIdx l.length i ∧ pyNormIdx l.length i < (l.length : Int) then
    .ok (l.get ⟨(pyNormIdx l.length i).toNat, by omega⟩,
         l.eraseIdx (pyNormIdx l.length i).toNat)
  else .error PyErr.indexError

/-- `parse_output_file(args)`: find the first indices of `-o` and
`--output` (`-1` when absent); raise the conflict `ValueError` when BOTH
are at a strictly positive index (note: `idx > 0`, not `idx >= 0`, in the
source); default to `"combined.pdf"` when neither occurs; otherwise pop
the value token at `idx + 1`, then the flag token at `idx`, and return the
value together with the mutated argument list. -/
def parse_output_file (args : List String) : Except PyErr (String × List String) :=
  let idx_o := pyIndex args "-o"
  let idx_output := pyIndex args "--output"
  if idx_o > 0 ∧ idx_output > 0 then .error PyErr.conflictingOutputFlags
  else
    let idx := max idx_o idx_output
    if idx = -1 then .ok ("combined.pdf", args)
    else
      match pyPop args (idx + 1) with
      | .error e => .error e
      | .ok (outfile, args1) =>
        match pyPop args1 idx with
        | .error e => .error e
        | .ok (_, args2) => .ok (outfile, args2)

/-- Outcome of the operation-grouping phase of `main` (the
`while len(args_to_process) > 0` loop): either the ordered operation list,
or a printed `File ... does not exist. Aborting.` message followed by a
clean return, or an uncaught exception crashing the run. -/
inductive GroupRes where
  | ok : List Operation → GroupRes
  | fileNotFound : String → GroupRes
  | uncaught : PyErr → GroupRes
  deriving DecidableEq, Repr

/-- The inner `while ... startswith("-")` loop of `main` together with the
continuation of the outer loop: `op` is the operation under construction.
A flag token pops the next token as its value FIRST (`IndexError` on an
exhausted queue), then dispatches on the flag: `-k`/`--keep` and
`-r`/`--remove` set `page_range` and `keep`, `-a`/`--angle` parses the
value with `int` (uncaught `ValueError` on failure), and any other flag
reaches `print(f"... {highlight(current)}")` whose f-string evaluates the
undefined variable `current`, raising an uncaught `NameError`.  A non-flag
token ends the current operation and must name an existing file. -/
def groupAux (isFile : String → Bool) : Operation → List String → GroupRes
  | op, [] => .ok [op]
  | op, t :: rest =>
    if startsWithDash t then
      match rest with
      | [] => .uncaught PyErr.indexError
      | v :: rest2 =>
        if t = "-k" ∨ t = "--keep" then
          groupAux isFile (Operation.mk op.filename (some v) true op.angle) rest2
        else if t = "-r" ∨ t = "--remove" then
          groupAux isFile (Operation.mk op.filename (some v) false op.angle) rest2
        else if t = "-a" ∨ t = "--angle" then
          match pyInt? v with
          | some a => groupAux isFile (Operation.mk op.filename op.page_range op.keep a) rest2
          | none => .uncaught (PyErr.invalidLiteral v)
        else .uncaught (PyErr.nameError "current")
    else
      if isFile t then
        match groupAux isFile (Operation.mk t none true 0) rest with
        | .ok ops => .ok (op :: ops)
        | r => r
      else .fileNotFound t

/-- The operation-grouping loop of `main` from its start: the first queued
token must name an existing file and opens the first operation. -/
def groupOps (isFile : String → Bool) : List String → GroupRes
  | [] => .ok []
  | t :: rest =>
    if isFile t then groupAux isFile (Operation.mk t none true 0) rest
    else .fileNotFound t

/-- Outcome of the PDF-combining phase of `main`: the output file is
written only in `wrote`; `printedErr` is the caught `ValueError` from
`pages_to_keep` (printed, then a clean return), `crashed` an uncaught
exception (`IndexError` from `reader.pages[i]`). -/
inductive PipeResult where
  | wrote : String → PipeResult
  | printedErr : PyErr → PipeResult
  | crashed : PyErr → PipeResult
  deriving DecidableEq, Repr

/-- Whether processing `op` fails in the combine loop: its page set fails
to parse (a `ValueError`, caught and printed), or some selected index is
out of bounds for the source document (`reader.pages[i]` raises
`IndexError`; Python indexing accepts `-N ≤ i < N`). -/
def opFails (pageCount : String → Nat) (op : Operation) : Bool :=
  match op.pages_to_keep (pageCount op.filename) with
  | .error _ => true
  | .ok pages =>
    !(decide (∀ i ∈ pages, -((pageCount op.filename : Nat) : Int) ≤ i ∧ i < ((pageCount op.filename : Nat) : Int)))

/-- The `for op in operations` loop of `main` followed by the final
`with open(outfile, "wb")` write: pages accumulate in the in-memory
writer, and the output path is opened and written only after the loop has
processed every operation without failure.  `pageCount op.filename` models
`len(reader.pages)` for the opened source file. -/
def combinePDFs (pageCount : String → Nat) (outfile : String) : List Operation → PipeResult
  | [] => .wrote outfile
  | op :: rest =>
    match op.pages_to_keep (pageCount op.filename) with
    | .error e => .printedErr e
    | .ok pages =>
      if ∀ i ∈ pages, -((pageCount op.filename : Nat) : Int) ≤ i ∧ i < ((pageCount op.filename : Nat) : Int) then
        combinePDFs pageCount outfile rest
      else .crashed PyErr.indexError

/-- CPython `hash` on small ints: the identity, except `hash(-1) = -2`. -/
def pyHash (v : Int) : Int :=
  if v = -1 then -2 else v

/-- CPython set slot for a small int in the initial 8-slot table:
`hash(v) mod 8` (`Int.emod` is non-negative for a positive modulus, like
the C-level `hash & mask` on the unsigned bit pattern). -/
def pySlot (v : Int) : Nat :=
  (pyHash v % 8).toNat

/-- Probe loop of CPython `set.add` on the 8-slot table: place `v` in the
first free slot starting at its hash slot, skipping it when already
present.  Collision resolution is modelled as linear probing; every input
used below is collision-free, so the probe path is never taken.  (Fuel 8
bounds the walk; the table never fills at the occupancies modelled here —
CPython resizes a size-8 table at 5 entries.) -/
def pyInsertGo (v : Int) : Nat → Nat → List (Option Int) → List (Option Int)
  | 0, _, t => t
  | fuel + 1, i, t =>
    match t.get? i with
    | none => t
    | some none => t.set i (some v)
    | some (some w) => if w = v then t else pyInsertGo v fuel ((i + 1) % 8) t

/-- CPython `set.add(v)` on the 8-slot small-int table. -/
def pyInsert (t : List (Option Int)) (v : Int) : List (Option Int) :=
  pyInsertGo v 8 (pySlot v) t

/-- Iteration order of a CPython small-int set built by inserting `vs` in
order into a fresh set: elements come out in table-slot order, NOT in
numeric or insertion order. -/
def pySetElems (vs : List Int) : List Int :=
  (vs.foldl pyInsert (List.replicate 8 none)).filterMap id

/-- Insertion sequence into the `pages` set for one comma-token of
`parse_page_range`: a single integer is one `add`; `LOW-HIGH` is
`pages.update(range(low, high + 1))`, inserting ascending. Errors as in
`tokenPages`. -/
def tokenInsertions (s r : String) : Except PyErr (List Int) :=
  match pySplit r '-' with
  | [x] =>
    match pyInt? x with
    | some n => .ok [n]
    | none => .error (PyErr.invalidLiteral x)
  | [x, y] =>
    match pyInt? x with
    | none => .error (PyErr.invalidLiteral x)
    | some low =>
      match pyInt? y with
      | none => .error (PyErr.invalidLiteral y)
      | some high =>
        if high < low then .error (PyErr.invalidRange r)
        else .ok ((List.range (high + 1 - low).toNat).map (fun k : Nat => low + (k : Int)))
  | _ => .error (PyErr.rangeParseFailed s)

/-- The `for r in ranges` loop of `parse_page_range`, tracking the order
in which values are inserted into the `pages` set. -/
def parseInsertLoop (s : String) (acc : List Int) : List String → Except PyErr (List Int)
  | [] => .ok acc
  | r :: rs =>
    match tokenInsertions s r with
    | .error e => .error e
    | .ok xs => parseInsertLoop s (acc ++ xs) rs

/-- Iteration order of the set returned by `parse_page_range(s)` (zero
indexed, the form `pages_to_keep` uses): the one-indexed set is built by
the token loop, then `set([p - 1 for p in pages])` iterates it in
CPython table order and builds the final set, whose own table order is the
order `main`'s `for i in pages_to_keep` loop appends pages to the writer
for a keep-mode operation. -/
def parsePageRangeIterOrder (s : String) : Except PyErr (List Int) :=
  match parseInsertLoop s [] (pySplit s ',') with
  | .error e => .error e
  | .ok ins => .ok (pySetElems ((pySetElems ins).map (fun p => p - 1)))

/-- Membership in `set(range(N))`: exactly the integers in `[0, N)`. -/
theorem mem_allPages (p : Int) (N : Nat) : p ∈ allPages N ↔ 0 ≤ p ∧ p < (N : Int) := by
  simp only [allPages, Finset.mem_image, Finset.mem_range]
  constructor
  · rintro ⟨k, hk, rfl⟩
    omega
  · intro h
    exact ⟨p.toNat, by omega, by omega⟩

/-- A dash-joined pair token whose upper bound is below its lower bound
makes the loop body raise `invalid range`. -/
theorem tokenPages_badPair (s r a b : String) (lo hi : Int)
    (hsplit : pySplit r '-' = [a, b]) (ha : pyInt? a = some lo)
    (hb : pyInt? b = some hi) (hlt : hi < lo) :
    tokenPages s r = .error (PyErr.invalidRange r) := by
  unfold tokenPages
  rw [hsplit]
  simp [ha, hb, hlt]

/-- If any comma-token of the spec fails, the whole token loop fails
(whatever set has been accumulated so far). -/
theorem parseRangeLoop_error_of_mem (s r : String) :
    ∀ (l : List String), r ∈ l → isError (tokenPages s r) = true →
      ∀ acc, isError (parseRangeLoop s acc l) = true := by
  intro l
  induction l with
  | nil => intro hmem; cases hmem
  | cons r0 rs ih =>
    intro hmem herr acc
    cases hr0 : tokenPages s r0 with
    | error e => simp [parseRangeLoop, hr0, isError]
    | ok t =>
      rcases List.mem_cons.mp hmem with h | h
      · subst h
        rw [hr0] at herr
        simp [isError] at herr
      · simp only [parseRangeLoop, hr0]
        exact ih h herr (acc ∪ t)

/-- `list.pop(i)` at an index at or beyond the length raises `IndexError`. -/
theorem pyPop_oob (l : List String) (i : Int) (h : (l.length : Int) ≤ i) :
    pyPop l i = .error PyErr.indexError := by
  have hn : pyNormIdx l.length i = i := by
    unfold pyNormIdx
    rw [if_neg (by omega : ¬ i < 0)]
  unfold pyPop
  rw [dif_neg (by rw [hn]; omega)]

/-- C1: the pages a keep-mode operation contributes are NOT appended in
ascending numeric order in general: `main` iterates the set returned by
`pages_to_keep` without sorting, so the pages come out in CPython
set-table order.  For the range spec `"2,9"` (keep pages 2 and 9 of a
document with at least nine pages) the zero-indexed set is `{1, 8}`, but
the iteration order — hence the order the pages are appended to the
writer — is `[8, 1]`, page 9 before page 2, which is not ascending.  The
claim holds only incidentally for small page numbers; the code omits the
sort the spec requires. -/
theorem c1_keep_emission_not_ascending :
    parsePageRangeIterOrder "2,9" = .ok [8, 1] ∧
    parse_page_range "2,9" true = .ok {1, 8} ∧
    ¬ List.Pairwise (fun p q => p ≤ q) ([8, 1] : List Int) := by
  refine ⟨by decide, by decide, by decide⟩

/-- C2: the conflict check `idx_o > 0 and idx_output > 0` uses `> 0`
although the absent-sentinel is `-1`, so a flag at position 0 escapes it:
with `-o` at position 0 and `--output` also present, `parse_output_file`
does not raise `ConflictingFlags` but succeeds, returning the `--output`
value.  (When both flags sit at strictly positive indices the conflict is
raised, confirming the check's intent.) -/
theorem c2_conflict_check_misses_position_zero :
    "-o" ∈ ["-o", "a.pdf", "--output", "b.pdf"] ∧
    "--output" ∈ ["-o", "a.pdf", "--output", "b.pdf"] ∧
    parse_output_file ["-o", "a.pdf", "--output", "b.pdf"] = .ok ("b.pdf", ["-o", "a.pdf"]) ∧
    parse_output_file ["x.pdf", "-o", "a.pdf", "--output", "b.pdf"] =
      .error PyErr.conflictingOutputFlags := by
  refine ⟨by decide, by decide, by decide, by decide⟩

/-- C3: on an unknown flag the grouping loop does not print an error
naming the token: the handler `print(f"Error: failed to parse argument:
{highlight(current)}")` references the undefined variable `current`
(the flag variable is `cmd`), so the run dies with an uncaught
`NameError`, which is not a `ValueError` and is caught nowhere in
`main`. -/
theorem c3_unknown_flag_raises_name_error :
    groupOps (fun t => t == "doc.pdf") ["doc.pdf", "-x", "90"] =
      GroupRes.uncaught (PyErr.nameError "current") ∧
    isValueError (PyErr.nameError "current") = false := by
  refine ⟨by decide, rfl⟩

/-- C4 counterexample: `pages_to_keep` does not bound-check keep-mode
pages: an operation keeping page 7 of a 3-page document returns `{6}`,
whose element 6 is not below the page count 3. -/
theorem c4_counterexample :
    (Operation.mk "f.pdf" (some "7") true 0).pages_to_keep 3 = .ok {6} ∧
    (6 : Int) ∈ ({6} : Finset Int) ∧ ¬ ((6 : Int) < (3 : Int)) := by
  refine ⟨by decide, by decide, by decide⟩

/-- C4 amended: every element of `pages_to_keep(N)` is a non-negative
integer strictly below `N` whenever the operation's range spec is unset
or the operation is in remove mode; in keep mode the parsed set is
returned unfiltered and its elements may lie outside `[0, N)`. -/
theorem c4_bounds_amended (op : Operation) (N : Nat) (S : Finset Int)
    (hcase : op.page_range = none ∨ op.keep = false)
    (h : op.pages_to_keep N = .ok S) :
    ∀ p ∈ S, 0 ≤ p ∧ p < (N : Int) := by
  intro p hp
  obtain ⟨fn, pr, kp, ang⟩ := op
  cases pr with
  | none =>
    simp only [Operation.pages_to_keep, Except.ok.injEq] at h
    rw [← h] at hp
    exact (mem_allPages p N).mp hp
  | some s =>
    rcases hcase with hc | hc
    · cases hc
    · replace hc : kp = false := hc
      subst hc
      cases hparse : parse_page_range s true with
      | error e =>
        simp only [Operation.pages_to_keep, hparse] at h
        cases h
      | ok pages =>
        simp only [Operation.pages_to_keep, hparse, Bool.false_eq_true, if_false,
          Except.ok.injEq] at h
        rw [← h] at hp
        exact (mem_allPages p N).mp (Finset.mem_sdiff.mp hp).1

/-- C4 witness: instantiating the amended theorem at a rangeless
operation on a 2-page document and its member page 1. -/
theorem c4_bounds_witness : (0 : Int) ≤ 1 ∧ (1 : Int) < ((2 : Nat) : Int) :=
  c4_bounds_amended (Operation.mk "f.pdf" none true 0) 2 (allPages 2)
    (Or.inl rfl) (by decide) 1 (by decide)

/-- C5: a remove-mode operation whose range spec parses to `S` keeps
exactly `{0, ..., N-1} \ S`; elements of `S` outside that interval vanish
in the set difference and so have no effect. -/
theorem c5_remove_complement (N : Nat) (f s : String) (a : Int) (S : Finset Int)
    (h : parse_page_range s true = .ok S) :
    (Operation.mk f (some s) false a).pages_to_keep N = .ok (allPages N \ S) := by
  unfold Operation.pages_to_keep
  simp [h]

/-- C5 witness: removing pages 1-3 from a 4-page document keeps page 3
(zero-indexed), i.e. the complement of `{0, 1, 2}` in `{0, 1, 2, 3}`. -/
theorem c5_remove_complement_witness :
    (Operation.mk "f.pdf" (some "1-3") false 0).pages_to_keep 4 =
      .ok (allPages 4 \ {0, 1, 2}) :=
  c5_remove_complement 4 "f.pdf" "1-3" 0 {0, 1, 2} (by decide)

/-- C6: an operation with no range spec keeps all `N` pages whatever the
`keep` flag (and angle) are. -/
theorem c6_none_keeps_all_pages (N : Nat) (f : String) (keep : Bool) (a : Int) :
    (Operation.mk f none keep a).pages_to_keep N = .ok (allPages N) := rfl

/-- C7: `parse("1-2,4")` is `{0, 1, 3}` zero-indexed and `{1, 2, 4}` in
raw one-indexed mode; comma-tokens are unioned with duplicates collapsing
(the re-ordered, duplicated spec `"4,1-2,2"` gives the same set). -/
theorem c7_parse_examples :
    parse_page_range "1-2,4" true = .ok {0, 1, 3} ∧
    parse_page_range "1-2,4" false = .ok {1, 2, 4} ∧
    parse_page_range "4,1-2,2" true = .ok {0, 1, 3} := by
  refine ⟨by decide, by decide, by decide⟩

/-- C8 counterexample: a spec containing the bad pair token `"5-3"` can
fail with a DIFFERENT error than `InvalidRange` when an earlier token is
malformed: `"1-2-3,5-3"` raises `failed to parse page range` for
`"1-2-3"` before the bad pair is reached. -/
theorem c8_counterexample :
    parse_page_range "1-2-3,5-3" true = .error (PyErr.rangeParseFailed "1-2-3,5-3") ∧
    PyErr.rangeParseFailed "1-2-3,5-3" ≠ PyErr.invalidRange "5-3" := by
  refine ⟨by decide, by decide⟩

/-- C8 amended: a range spec containing a dash-joined pair token
`LOW-HIGH` with `HIGH < LOW` never parses to a set — the parser always
fails, and the error is `InvalidRange` when the bad pair is the first
failing token (as for the spec `"5-3"` itself); an earlier malformed
token may yield `ParseError` instead. -/
theorem c8_fails_amended (s : String) (m : Bool) (r a b : String) (lo hi : Int)
    (hmem : r ∈ pySplit s ',') (hsplit : pySplit r '-' = [a, b])
    (ha : pyInt? a = some lo) (hb : pyInt? b = some hi) (hlt : hi < lo) :
    isError (parse_page_range s m) = true ∧
    parse_page_range "5-3" m = .error (PyErr.invalidRange "5-3") := by
  constructor
  · have herr : isError (tokenPages s r) = true := by
      rw [tokenPages_badPair s r a b lo hi hsplit ha hb hlt]
      rfl
    have hloop := parseRangeLoop_error_of_mem s r (pySplit s ',') hmem herr ∅
    unfold parse_page_range
    cases hl : parseRangeLoop s ∅ (pySplit s ',') with
    | error e => rfl
    | ok pages => rw [hl] at hloop; simp [isError] at hloop
  · cases m
    · decide
    · decide

/-- C8 witness: the spec `"2,5-3"` contains the bad pair token `"5-3"`
and fails; `"5-3"` alone fails with `InvalidRange`. -/
theorem c8_fails_witness :
    isError (parse_page_range "2,5-3" true) = true ∧
    parse_page_range "5-3" true = .error (PyErr.invalidRange "5-3") :=
  c8_fails_amended "2,5-3" true "5-3" "5" "3" 5 3 (by decide) (by decide)
    (by decide) (by decide) (by decide)

/-- C9: if any operation fails during pipeline execution — its range spec
fails to parse, or a selected page index is outside the open document's
bounds — the combine loop ends in a printed error or a crash and the
output path is never written: `combinePDFs` reaches `wrote` only by
getting past every operation. -/
theorem c9_no_partial_write (pageCount : String → Nat) (outfile : String) :
    ∀ (ops : List Operation), (∃ op ∈ ops, opFails pageCount op = true) →
      ∀ f, combinePDFs pageCount outfile ops ≠ PipeResult.wrote f := by
  intro ops
  induction ops with
  | nil => intro h; simp at h
  | cons op rest ih =>
    intro h f hw
    obtain ⟨op0, hmem, hfail⟩ := h
    rcases List.mem_cons.mp hmem with heq | hmem0
    · subst heq
      unfold combinePDFs at hw
      unfold opFails at hfail
      cases hp : op0.pages_to_keep (pageCount op0.filename) with
      | error e => rw [hp] at hw; cases hw
      | ok pages =>
        simp only [hp] at hw hfail
        by_cases hb : ∀ i ∈ pages, -((pageCount op0.filename : Nat) : Int) ≤ i ∧
            i < ((pageCount op0.filename : Nat) : Int)
        · rw [decide_eq_true hb] at hfail
          simp at hfail
        · rw [if_neg hb] at hw; cases hw
    · unfold combinePDFs at hw
      cases hp : op.pages_to_keep (pageCount op.filename) with
      | error e => rw [hp] at hw; cases hw
      | ok pages =>
        simp only [hp] at hw
        by_cases hb : ∀ i ∈ pages, -((pageCount op.filename : Nat) : Int) ≤ i ∧
            i < ((pageCount op.filename : Nat) : Int)
        · rw [if_pos hb] at hw
          exact ih ⟨op0, hmem0, hfail⟩ f hw
        · rw [if_neg hb] at hw; cases hw

/-- C9 witness: one operation keeping page 5 of a 3-page document fails
(index 4 is out of bounds), and the pipeline result is not a write of the
output path. -/
theorem c9_no_partial_write_witness :
    combinePDFs (fun _ => 3) "out.pdf" [Operation.mk "f.pdf" (some "5") true 0] ≠
      PipeResult.wrote "out.pdf" :=
  c9_no_partial_write (fun _ => 3) "out.pdf"
    [Operation.mk "f.pdf" (some "5") true 0]
    ⟨Operation.mk "f.pdf" (some "5") true 0, by decide, by decide⟩ "out.pdf"

/-- C10 counterexample: the claim is not true of every argument list
ending in `-o`/`--output`: `args.index` finds the FIRST occurrence, so in
`["-o", "out.pdf", "-o"]` — whose final token is `-o` with no value after
it — extraction succeeds (popping positions 1 and 0) instead of failing
with an out-of-range index error. -/
theorem c10_counterexample :
    parse_output_file ["-o", "out.pdf", "-o"] = .ok ("out.pdf", ["-o"]) := by
  decide

/-- C10 amended: when the conflict check does not fire (not both flags at
strictly positive first indices) and the selected occurrence — the larger
of the first indices of `-o` and `--output` — is the final position of
the argument list, `args.pop(idx + 1)` addresses position `len(args)`,
which is out of range: extraction fails with an `IndexError`, and `main`
does not catch it (it catches only `ValueError`), so the program dies
with an unhandled out-of-range index error. -/
theorem c10_trailing_flag_amended (args : List String)
    (hconf : ¬ (pyIndex args "-o" > 0 ∧ pyIndex args "--output" > 0))
    (hpos : 0 ≤ max (pyIndex args "-o") (pyIndex args "--output"))
    (hlast : max (pyIndex args "-o") (pyIndex args "--output") = (args.length : Int) - 1) :
    parse_output_file args = .error PyErr.indexError ∧
    isValueError PyErr.indexError = false := by
  refine ⟨?_, rfl⟩
  unfold parse_output_file
  simp only
  rw [if_neg hconf]
  rw [if_neg (by omega : ¬ max (pyIndex args "-o") (pyIndex args "--output") = -1)]
  rw [pyPop_oob args (max (pyIndex args "-o") (pyIndex args "--output") + 1) (by omega)]

/-- C10 witness: the single-token argument list `["-o"]` has its selected
flag at the final position; extraction raises the uncaught
`IndexError`. -/
theorem c10_trailing_flag_witness :
    parse_output_file ["-o"] = .error PyErr.indexError ∧
    isValueError PyErr.indexError = false :=
  c10_trailing_flag_amended ["-o"] (by decide) (by decide) (by decide)

end Pdfcombine
